import Mathlib

/-!
Verification of the background coordination layer of the TaskGoblin
application (source: src/src-tauri/src/lib.rs).

The development shallowly embeds the coordination core of the Rust source:

- the shared mode state (mouse_moving, is_pet_mode, is_paint_mode,
  is_dialog_open) and its setter commands;
- the deferred-shutdown scheduler (schedule_shutdown, cancel_shutdown,
  get_shutdown_time) with its oneshot cancellation channels and the
  timer-versus-cancellation race of the spawned tokio task;
- the gesture watcher loop of spawn_key_listener (edge detection and
  debounced triple-tap counting);
- the pointer oscillator loop of run;
- the capture/OCR/clipboard pipeline (extract_text_from_screen,
  process_screenshot_ocr, notify_user).

Conventions of the embedding: fallible Rust functions returning
Result of T and String become Except String T.  Window-manipulation
side effects whose results the source discards (the Rust idiom that
binds the result to an underscore) take their would-be outcomes from a
WindowFx record and discard them the same way, so that independence of
the returned value from those outcomes is a provable statement.
External command invocations, notifications and clipboard writes are
recorded as an emitted event trace.  Timestamps are naturals (seconds
for the scheduler, milliseconds for the gesture watcher, matching the
units each piece of the source uses).  Oneshot channels are numbered by
a counter; sending on a channel records the pair of channel id and send
time, and a spawned timer task executes its body iff no send on its
channel happened strictly before the sleep elapses, which is how the
tokio select race resolves when the two readiness times differ.
-/

deriving instance DecidableEq for Except

namespace TaskGoblin

/-- Rust str::trim of the source, embedded over the character list of the
string (strip leading and trailing whitespace). -/
def rustTrim (s : String) : String :=
  ⟨((s.data.dropWhile Char.isWhitespace).reverse.dropWhile Char.isWhitespace).reverse⟩

/-- Rust str::starts_with of the source, embedded over character lists. -/
def rustStartsWith (s pat : String) : Bool :=
  pat.data.isPrefixOf s.data

/-- Side effects emitted by the embedded operations: window manipulation,
external commands, clipboard writes and toast notifications. -/
inductive Event where
  | windowHide
  | windowShow
  | windowSetFocus
  | runCapture
  | runOcr
  | removeTempFile
  | runShutdownCommand
  | clipboardWrite (text : String)
  | notify (title message : String)
deriving Repr, DecidableEq

/-- The mode flags of AppState (lib.rs lines 11-19), without the shutdown
descriptor, which lives in SchedulerState below. -/
structure ModeState where
  mouseMoving : Bool
  isPetMode : Bool
  isPaintMode : Bool
  isDialogOpen : Bool
deriving Repr, DecidableEq

/-- Outcomes of the best-effort window side effects whose results the source
discards.  The operations below consume these outcomes exactly as the source
does: they bind them and throw them away. -/
structure WindowFx where
  setResizableOk : Bool
  maximizeOk : Bool
  unmaximizeOk : Bool
  setSizeOk : Bool
  setAlwaysOnTopOk : Bool
  setIgnoreCursorOk : Bool
  closeOk : Bool
  setPositionOk : Bool
deriving Repr, DecidableEq

/-- A WindowFx in which every side effect succeeds. -/
def fxAll : WindowFx := ⟨true, true, true, true, true, true, true, true⟩

/-- A WindowFx in which every side effect fails. -/
def fxNone : WindowFx := ⟨false, false, false, false, false, false, false, false⟩

/-- is_mouse_moving (lib.rs lines 21-25). -/
def is_mouse_moving (st : ModeState) : Except String Bool :=
  Except.ok st.mouseMoving

/-- toggle_mouse (lib.rs lines 27-34): invert the flag and return the new
value; never fails. -/
def toggle_mouse (st : ModeState) : Except String Bool × ModeState :=
  let moving := !st.mouseMoving
  (Except.ok moving, { st with mouseMoving := moving })

/-- toggle_pet_mode (lib.rs lines 232-268), macOS branch: store the flag,
then perform best-effort window manipulation whose results are discarded. -/
def toggle_pet_mode (active : Bool) (fx : WindowFx) (st : ModeState) :
    Except String Unit × ModeState :=
  let st1 := { st with isPetMode := active }
  let _ := fx.setResizableOk
  let _ := fx.maximizeOk
  let _ := fx.setAlwaysOnTopOk
  let _ := fx.setIgnoreCursorOk
  let _ := fx.unmaximizeOk
  let _ := fx.setSizeOk
  (Except.ok (), st1)

/-- toggle_paint_mode (lib.rs lines 270-311), macOS branch: store the flag,
then perform best-effort window manipulation whose results are discarded. -/
def toggle_paint_mode (active : Bool) (fx : WindowFx) (st : ModeState) :
    Except String Unit × ModeState :=
  let st1 := { st with isPaintMode := active }
  let _ := fx.setResizableOk
  let _ := fx.maximizeOk
  let _ := fx.setAlwaysOnTopOk
  let _ := fx.setIgnoreCursorOk
  let _ := fx.unmaximizeOk
  let _ := fx.setSizeOk
  (Except.ok (), st1)

/-- set_dialog_open (lib.rs lines 953-957). -/
def set_dialog_open (o : Bool) (st : ModeState) : Except String Unit × ModeState :=
  (Except.ok (), { st with isDialogOpen := o })

/-- The spawned timer task of schedule_shutdown (lib.rs lines 575-596): it
races a sleep of delaySecs seconds started at startTime against the oneshot
receiver of channel chan. -/
structure TimerTask where
  chan : Nat
  startTime : Nat
  delaySecs : Nat
deriving Repr, DecidableEq

/-- The scheduler part of AppState: shutdown_cancel_tx (as the id of the
installed oneshot channel), shutdown_target, shutdown_duration, plus the
bookkeeping the race semantics needs: which channels have been sent on and
when, the spawned timer tasks, the channel-id counter, and whether the
island countdown window currently exists. -/
structure SchedulerState where
  shutdownCancelTx : Option Nat
  shutdownTarget : Option Nat
  shutdownDuration : Option Nat
  signalled : List (Nat × Nat)
  tasks : List TimerTask
  nextChan : Nat
  islandOpen : Bool
deriving Repr, DecidableEq

/-- The scheduler state at startup (lib.rs lines 1040-1048: all three
descriptor fields start as None). -/
def initSchedulerState : SchedulerState :=
  { shutdownCancelTx := none
    shutdownTarget := none
    shutdownDuration := none
    signalled := []
    tasks := []
    nextChan := 0
    islandOpen := false }

/-- The InvalidArgument error message of schedule_shutdown (lib.rs line 510). -/
def invalidArgumentMsg : String := "Delay must be greater than 0"

/-- The Unsupported (non-macOS) error messages of the scheduler and
mode-state commands in lib.rs. -/
def unsupportedMsgs : List String :=
  ["Not supported on this OS", "Pet mode not supported on this OS",
   "OCR is only supported on macOS"]

/-- schedule_shutdown (lib.rs lines 501-604), macOS branch.  Arguments: the
current unix time, the requested delay, the outcome of building the island
webview window (none for success, some error text for a builder failure,
which the source propagates through map_err and the question-mark operator),
the discarded window side effects, and the scheduler state.

Order of effects, as in the source: reject a zero delay; under the single
cancel-tx lock, send on any previously installed oneshot channel and install
a fresh one; compute target_timestamp and store target and duration; close
any prior island window and build the new one, returning early with an error
if the build fails (the spawned timer task then never starts); finally spawn
the timer task racing the sleep against the new receiver. -/
def schedule_shutdown (now delaySecs : Nat) (islandBuild : Option String)
    (fx : WindowFx) (st : SchedulerState) : Except String Unit × SchedulerState :=
  if delaySecs = 0 then
    (Except.error invalidArgumentMsg, st)
  else
    let signalled1 :=
      match st.shutdownCancelTx with
      | some c => (c, now) :: st.signalled
      | none => st.signalled
    let newChan := st.nextChan
    let st1 : SchedulerState :=
      { shutdownCancelTx := some newChan
        shutdownTarget := some (now + delaySecs)
        shutdownDuration := some delaySecs
        signalled := signalled1
        tasks := st.tasks
        nextChan := st.nextChan + 1
        islandOpen := false }
    let _ := fx.closeOk
    match islandBuild with
    | some e => (Except.error ("Failed to create island window: " ++ e), st1)
    | none =>
      let _ := fx.setPositionOk
      (Except.ok (),
        { st1 with
          islandOpen := true
          tasks := st.tasks ++ [{ chan := newChan, startTime := now, delaySecs := delaySecs }] })

/-- cancel_shutdown (lib.rs lines 606-624): take and send on the installed
oneshot channel if any, clear target and duration, close the island window
(result discarded), return Ok. -/
def cancel_shutdown (now : Nat) (fx : WindowFx) (st : SchedulerState) :
    Except String Unit × SchedulerState :=
  let signalled1 :=
    match st.shutdownCancelTx with
    | some c => (c, now) :: st.signalled
    | none => st.signalled
  let _ := fx.closeOk
  (Except.ok (),
    { st with
      shutdownCancelTx := none
      shutdownTarget := none
      shutdownDuration := none
      signalled := signalled1
      islandOpen := false })

/-- get_shutdown_time (lib.rs lines 626-635): report target_timestamp and
duration_secs, each defaulting to 0 when absent; never fails. -/
def get_shutdown_time (st : SchedulerState) : Except String (Nat × Nat) :=
  Except.ok (st.shutdownTarget.getD 0, st.shutdownDuration.getD 0)

/-- Resolution of the tokio select race inside the spawned task of
schedule_shutdown: the timer branch wins (the deferred action executes) iff
no send on the task channel happened strictly before the sleep elapsed at
startTime + delaySecs. -/
def timerWins (st : SchedulerState) (t : TimerTask) : Bool :=
  st.signalled.all fun p => decide (p.1 ≠ t.chan) || decide (t.startTime + t.delaySecs ≤ p.2)

/-- The timer-elapsed branch of the spawned task (lib.rs lines 579-590):
invoke the external shutdown command once, then close the island window.
The descriptor fields of the state are not touched. -/
def fireTimer (st : SchedulerState) : SchedulerState × List Event :=
  ({ st with islandOpen := false }, [Event.runShutdownCommand])

/-- The private loop state of spawn_key_listener (lib.rs lines 966-969):
timestamp of the last rising edge (milliseconds), tap counter, and whether
the control key was down at the previous poll. -/
structure GestureState where
  lastTap : Nat
  tapCount : Nat
  ctrlWasPressed : Bool
deriving Repr, DecidableEq

/-- The gesture state at thread start: last_tap is the spawn instant,
tap_count is 0, ctrl_was_pressed is false. -/
def initGestureState (t0 : Nat) : GestureState :=
  { lastTap := t0, tapCount := 0, ctrlWasPressed := false }

/-- One poll iteration of the spawn_key_listener loop (lib.rs lines
971-1000).  Inputs: the current instant in milliseconds and whether the left
and right control keys are down.  Output: the new loop state and whether
this iteration spawned the screenshot pipeline. -/
def gestureStep (now : Nat) (lctrl rctrl : Bool) (g : GestureState) :
    GestureState × Bool :=
  let ctrlIsPressed := lctrl || rctrl
  if ctrlIsPressed && !g.ctrlWasPressed then
    let count := if now - g.lastTap < 500 then g.tapCount + 1 else 1
    if count = 3 then
      ({ lastTap := now, tapCount := 0, ctrlWasPressed := ctrlIsPressed }, true)
    else
      ({ lastTap := now, tapCount := count, ctrlWasPressed := ctrlIsPressed }, false)
  else
    ({ g with ctrlWasPressed := ctrlIsPressed }, false)

/-- One tick of the pointer oscillator loop (lib.rs lines 1144-1160), after
the mouse_moving flag has been copied out of the lock: given the flag and
the current direction, return the new direction and the relative pointer
move performed, if any. -/
def oscTick (moving : Bool) (direction : Int) : Int × Option (Int × Int) :=
  if moving then (-direction, some (direction, 0)) else (direction, none)

/-- The pointer moves performed by a run of oscillator ticks that observe
the given successive values of the mouse_moving flag, starting from the
given direction (the loop starts at direction 1). -/
def oscRun (direction : Int) : List Bool → List (Int × Int)
  | [] => []
  | m :: ms =>
    let td := oscTick m direction
    match td.2 with
    | some off => off :: oscRun td.1 ms
    | none => oscRun td.1 ms

/-- The environment of one pipeline run: whether the presentation window was
visible at the start, the io-level outcome of the screencapture command, the
existence of the temporary capture file afterwards, and the io-level outcome
of the swift OCR command (its stdout on success). -/
structure CaptureEnv where
  wasVisible : Bool
  captureResult : Except String Unit
  fileExists : Bool
  ocrResult : Except String String
deriving Repr, DecidableEq

/-- The event trace of the capture stage of extract_text_from_screen (lib.rs
lines 644-671): hide the window when it was visible, run the interactive
capture, then restore visibility and focus when it was visible — before the
capture outcome is even inspected. -/
def extractPre (env : CaptureEnv) : List Event :=
  (if env.wasVisible then [Event.windowHide] else []) ++
    [Event.runCapture] ++
    (if env.wasVisible then [Event.windowShow, Event.windowSetFocus] else [])

/-- extract_text_from_screen (lib.rs lines 637-740), macOS branch, returning
the result and the emitted event trace.  A missing capture file (the user
cancelled) yields Ok of the empty string; otherwise the OCR command runs,
the temporary file is removed regardless of the OCR outcome, and a trimmed
stdout carrying the ERROR: prefix becomes an error with that text. -/
def extract_text_from_screen (env : CaptureEnv) :
    Except String String × List Event :=
  let pre := extractPre env
  match env.captureResult with
  | Except.error e => (Except.error ("Screencapture failed: " ++ e), pre)
  | Except.ok _ =>
    if !env.fileExists then
      (Except.ok "", pre)
    else
      let evs := pre ++ [Event.runOcr, Event.removeTempFile]
      match env.ocrResult with
      | Except.ok out =>
        let stdout := rustTrim out
        if rustStartsWith stdout "ERROR:" then
          (Except.error stdout, evs)
        else
          (Except.ok stdout, evs)
      | Except.error e => (Except.error ("OCR extraction failed: " ++ e), evs)

/-- notify_user (lib.rs lines 771-784): show and focus the main window, then
emit the toast event with the given title and message. -/
def notify_user (title message : String) : List Event :=
  [Event.windowShow, Event.windowSetFocus, Event.notify title message]

/-- process_screenshot_ocr (lib.rs lines 926-951), returning the result and
the full event trace.  The extra argument is the io-level outcome of the
pbcopy clipboard write, consulted only when there is non-blank text. -/
def process_screenshot_ocr (env : CaptureEnv) (clipboardResult : Except String Unit) :
    Except String Unit × List Event :=
  let r := extract_text_from_screen env
  match r.1 with
  | Except.ok text =>
    if (rustTrim text).isEmpty then
      (Except.ok (), r.2)
    else
      match clipboardResult with
      | Except.error e =>
        (Except.error e,
          r.2 ++ [Event.clipboardWrite text] ++
            notify_user "OCR Error" ("Failed to copy: " ++ e))
      | Except.ok _ =>
        (Except.ok (),
          r.2 ++ [Event.clipboardWrite text] ++
            notify_user "Text Copied!" "Copied content")
  | Except.error e => (Except.error e, r.2 ++ notify_user "OCR Failed" e)

/-- Effect of one event on the visibility of the presentation window. -/
def applyVisibility (v : Bool) : Event → Bool
  | Event.windowHide => false
  | Event.windowShow => true
  | _ => v

/-- Visibility of the presentation window after an event trace runs, given
its visibility before. -/
def visAfter (v : Bool) (evs : List Event) : Bool :=
  evs.foldl applyVisibility v

/-- Whether an event is observable at the public interface of the pipeline:
a toast notification or a clipboard write. -/
def publicFx : Event → Bool
  | Event.notify _ _ => true
  | Event.clipboardWrite _ => true
  | _ => false

/-- Concrete pipeline environment for the C7 counterexample: the window was
hidden before the run, capture succeeded with an existing file, and the OCR
command printed a diagnostic-prefixed line. -/
def envDiag : CaptureEnv :=
  { wasVisible := false
    captureResult := Except.ok ()
    fileExists := true
    ocrResult := Except.ok "ERROR: boom" }

/-- Behavior after the timer of a single uncancelled schedule elapses: the
shutdown command runs exactly once and the island window closes, but the
three descriptor fields keep their values, so status still reports the fired
schedule. -/
def C1_prop (n d : Nat) : Prop :=
  let r := schedule_shutdown n d none fxAll initSchedulerState
  let t : TimerTask := { chan := 0, startTime := n, delaySecs := d }
  let fired := fireTimer r.2
  r.1 = Except.ok () ∧
  r.2.tasks = [t] ∧
  timerWins r.2 t = true ∧
  fired.2 = [Event.runShutdownCommand] ∧
  fired.1.islandOpen = false ∧
  fired.1.shutdownTarget = some (n + d) ∧
  fired.1.shutdownDuration = some d ∧
  fired.1.shutdownCancelTx = some 0 ∧
  get_shutdown_time fired.1 = Except.ok (n + d, d)

/-- Error behavior of the scheduler and mode-state operations: every
operation except schedule_shutdown ignores all window side-effect outcomes
and never fails; schedule_shutdown is independent of the discarded window
side effects but propagates an island-window build failure as an error,
after the descriptor mutation has already committed. -/
def C2_prop : Prop :=
  (∀ (a : Bool) (st : ModeState) (fx fx2 : WindowFx),
    toggle_pet_mode a fx st = toggle_pet_mode a fx2 st) ∧
  (∀ (a : Bool) (st : ModeState) (fx : WindowFx),
    (toggle_pet_mode a fx st).1 = Except.ok () ∧
    (toggle_pet_mode a fx st).2 = { st with isPetMode := a }) ∧
  (∀ (a : Bool) (st : ModeState) (fx fx2 : WindowFx),
    toggle_paint_mode a fx st = toggle_paint_mode a fx2 st) ∧
  (∀ (a : Bool) (st : ModeState) (fx : WindowFx),
    (toggle_paint_mode a fx st).1 = Except.ok () ∧
    (toggle_paint_mode a fx st).2 = { st with isPaintMode := a }) ∧
  (∀ (o : Bool) (st : ModeState),
    set_dialog_open o st = (Except.ok (), { st with isDialogOpen := o })) ∧
  (∀ st : ModeState,
    toggle_mouse st = (Except.ok (!st.mouseMoving), { st with mouseMoving := !st.mouseMoving })) ∧
  (∀ st : ModeState, is_mouse_moving st = Except.ok st.mouseMoving) ∧
  (∀ st : SchedulerState,
    get_shutdown_time st = Except.ok (st.shutdownTarget.getD 0, st.shutdownDuration.getD 0)) ∧
  (∀ (now : Nat) (st : SchedulerState) (fx fx2 : WindowFx),
    cancel_shutdown now fx st = cancel_shutdown now fx2 st) ∧
  (∀ (now : Nat) (st : SchedulerState) (fx : WindowFx),
    (cancel_shutdown now fx st).1 = Except.ok ()) ∧
  (∀ (now d : Nat) (ib : Option String) (st : SchedulerState) (fx fx2 : WindowFx),
    schedule_shutdown now d ib fx st = schedule_shutdown now d ib fx2 st) ∧
  (∀ (now d : Nat) (e : String) (st : SchedulerState) (fx : WindowFx), d ≠ 0 →
    (schedule_shutdown now d (some e) fx st).1 =
      Except.error ("Failed to create island window: " ++ e) ∧
    (schedule_shutdown now d (some e) fx st).2.shutdownTarget = some (now + d) ∧
    (schedule_shutdown now d (some e) fx st).2.shutdownDuration = some d ∧
    (schedule_shutdown now d (some e) fx st).2.tasks = st.tasks)

/-- Rescheduling while a schedule is pending: the prior channel is signalled
and a fresh one installed within the same schedule step, the descriptor
matches the second call, the first timer task loses its race, the second
wins it, and the second task is the only live one. -/
def C3_prop (n1 d1 n2 d2 : Nat) : Prop :=
  let r1 := schedule_shutdown n1 d1 none fxAll initSchedulerState
  let r2 := schedule_shutdown n2 d2 none fxAll r1.2
  let t1 : TimerTask := { chan := 0, startTime := n1, delaySecs := d1 }
  let t2 : TimerTask := { chan := 1, startTime := n2, delaySecs := d2 }
  r1.1 = Except.ok () ∧
  r2.1 = Except.ok () ∧
  r2.2.shutdownTarget = some (n2 + d2) ∧
  r2.2.shutdownDuration = some d2 ∧
  r2.2.shutdownCancelTx = some 1 ∧
  r2.2.signalled = [(0, n2)] ∧
  r2.2.tasks = [t1, t2] ∧
  timerWins r2.2 t1 = false ∧
  timerWins r2.2 t2 = true ∧
  r2.2.tasks.filter (fun t => timerWins r2.2 t) = [t2]

/-- schedule_shutdown with a zero delay: the InvalidArgument error is
returned and the whole scheduler state, hence any prior schedule, its
descriptor fields and the race outcome of any prior timer task, is left
untouched. -/
def C4_prop : Prop :=
  ∀ (now : Nat) (ib : Option String) (fx : WindowFx) (st : SchedulerState),
    schedule_shutdown now 0 ib fx st = (Except.error invalidArgumentMsg, st) ∧
    (schedule_shutdown now 0 ib fx st).2.shutdownCancelTx = st.shutdownCancelTx ∧
    (schedule_shutdown now 0 ib fx st).2.shutdownTarget = st.shutdownTarget ∧
    (schedule_shutdown now 0 ib fx st).2.shutdownDuration = st.shutdownDuration ∧
    (∀ t : TimerTask, timerWins (schedule_shutdown now 0 ib fx st).2 t = timerWins st t)

/-- cancel_shutdown: never fails, clears all three descriptor fields and the
island window so that status reports zeros, is idempotent, ignores window
side-effect outcomes, and a cancel issued before the delay elapses makes the
pending timer task lose its race. -/
def C5_prop : Prop :=
  (∀ (now : Nat) (fx : WindowFx) (st : SchedulerState),
    (cancel_shutdown now fx st).1 = Except.ok ()) ∧
  (∀ (now : Nat) (fx : WindowFx) (st : SchedulerState),
    (cancel_shutdown now fx st).2.shutdownCancelTx = none ∧
    (cancel_shutdown now fx st).2.shutdownTarget = none ∧
    (cancel_shutdown now fx st).2.shutdownDuration = none ∧
    (cancel_shutdown now fx st).2.islandOpen = false ∧
    get_shutdown_time (cancel_shutdown now fx st).2 = Except.ok (0, 0)) ∧
  (∀ (now now2 : Nat) (fx fx2 : WindowFx) (st : SchedulerState),
    (cancel_shutdown now2 fx2 (cancel_shutdown now fx st).2).2 =
      (cancel_shutdown now fx st).2) ∧
  (∀ (now : Nat) (fx fx2 : WindowFx) (st : SchedulerState),
    cancel_shutdown now fx st = cancel_shutdown now fx2 st) ∧
  (∀ (n d m : Nat) (fx fx2 : WindowFx), 0 < d → m < n + d →
    timerWins (cancel_shutdown m fx2
        (schedule_shutdown n d none fx initSchedulerState).2).2
      { chan := 0, startTime := n, delaySecs := d } = false)

/-- One poll of the gesture watcher: no state change or trigger without a
rising edge of the control key (logical OR of left and right); on a rising
edge within 500 ms of the previous one the counter increments, triggering
the pipeline and resetting to 0 exactly when it reaches 3; on a rising edge
500 ms or more after the previous one the counter resets to 1. -/
def C6_prop (now : Nat) (lctrl rctrl : Bool) (g : GestureState) : Prop :=
  (¬((lctrl || rctrl) = true ∧ g.ctrlWasPressed = false) →
    gestureStep now lctrl rctrl g = ({ g with ctrlWasPressed := lctrl || rctrl }, false)) ∧
  ((lctrl || rctrl) = true ∧ g.ctrlWasPressed = false → now - g.lastTap < 500 →
      g.tapCount + 1 ≠ 3 →
    gestureStep now lctrl rctrl g =
      ({ lastTap := now, tapCount := g.tapCount + 1, ctrlWasPressed := lctrl || rctrl }, false)) ∧
  ((lctrl || rctrl) = true ∧ g.ctrlWasPressed = false → now - g.lastTap < 500 →
      g.tapCount + 1 = 3 →
    gestureStep now lctrl rctrl g =
      ({ lastTap := now, tapCount := 0, ctrlWasPressed := lctrl || rctrl }, true)) ∧
  ((lctrl || rctrl) = true ∧ g.ctrlWasPressed = false → 500 ≤ now - g.lastTap →
    gestureStep now lctrl rctrl g =
      ({ lastTap := now, tapCount := 1, ctrlWasPressed := lctrl || rctrl }, false))

/-- Restoration invariant of the capture stage: every run of
extract_text_from_screen emits the capture-stage trace (hide when visible,
capture, then show and focus when visible) as a prefix, after which no
visibility-changing event occurs in that function, the OCR command never
runs inside that prefix, and the prefix returns visibility to its pre-run
value — all regardless of the capture outcome. -/
def C7_restore_prop : Prop :=
  ∀ env : CaptureEnv, ∃ tail : List Event,
    (extract_text_from_screen env).2 = extractPre env ++ tail ∧
    Event.windowHide ∉ tail ∧
    Event.windowShow ∉ tail ∧
    Event.runOcr ∉ extractPre env ∧
    visAfter env.wasVisible (extractPre env) = env.wasVisible

/-- Diagnostic-prefixed OCR output: the run fails with the trimmed
diagnostic as its message, the failure notification carries that message
verbatim, and a window that was visible before the run is still visible
after the whole run. -/
def C7_prop (env : CaptureEnv) (clip : Except String Unit) (out : String) : Prop :=
  (extract_text_from_screen env).1 = Except.error (rustTrim out) ∧
  (process_screenshot_ocr env clip).1 = Except.error (rustTrim out) ∧
  Event.notify "OCR Failed" (rustTrim out) ∈ (process_screenshot_ocr env clip).2 ∧
  (env.wasVisible = true → visAfter true (process_screenshot_ocr env clip).2 = true)

/-- Cancelled capture: the run returns the empty string from the extract
stage, the orchestrator returns success, and the trace holds no clipboard
write and no notification. -/
def C8_prop (env : CaptureEnv) (clip : Except String Unit) : Prop :=
  extract_text_from_screen env = (Except.ok "", extractPre env) ∧
  process_screenshot_ocr env clip = (Except.ok (), extractPre env) ∧
  (extractPre env).filter publicFx = []

/-- Pointer-motion toggling and the oscillator: toggling twice restores the
flag, each toggle returns the new value, a tick moves the pointer iff the
flag holds and negates the direction exactly then, and the successive moves
of a run started at direction 1 are the alternating unit offsets. -/
def C9_prop : Prop :=
  (∀ st : ModeState,
    ((toggle_mouse (toggle_mouse st).2).2).mouseMoving = st.mouseMoving) ∧
  (∀ st : ModeState,
    (toggle_mouse st).1 = Except.ok (!st.mouseMoving) ∧
    (toggle_mouse st).2.mouseMoving = !st.mouseMoving) ∧
  (∀ d : Int, oscTick true d = (-d, some (d, 0))) ∧
  (∀ d : Int, oscTick false d = (d, none)) ∧
  (∀ flags : List Bool,
    oscRun 1 flags = (List.range (flags.count true)).map fun i => ((-1) ^ i, 0))

/-- Blank OCR text: the run returns success, writes no clipboard and emits
no notification, exactly matching the cancelled-capture run at the public
interface. -/
def C10_prop (env : CaptureEnv) (clip : Except String Unit) : Prop :=
  let envC : CaptureEnv := { env with fileExists := false }
  (process_screenshot_ocr env clip).1 = Except.ok () ∧
  (process_screenshot_ocr env clip).2.filter publicFx = [] ∧
  (process_screenshot_ocr env clip).1 = (process_screenshot_ocr envC clip).1 ∧
  (process_screenshot_ocr envC clip).2.filter publicFx = []

/-! Helper lemmas shared by the claim theorems. -/

theorem visAfter_append (v : Bool) (a b : List Event) :
    visAfter v (a ++ b) = visAfter (visAfter v a) b := by
  simp [visAfter]

theorem visAfter_true_of_no_hide (evs : List Event) (h : Event.windowHide ∉ evs) :
    visAfter true evs = true := by
  induction evs with
  | nil => rfl
  | cons e es ih =>
    have he : e ≠ Event.windowHide := by
      intro c
      exact h (c ▸ List.mem_cons_self e es)
    have hes : Event.windowHide ∉ es := fun c => h (List.mem_cons_of_mem e c)
    have hv : applyVisibility true e = true := by
      cases e <;> first | rfl | exact absurd rfl he
    simp only [visAfter, List.foldl_cons] at *
    rw [hv]
    exact ih hes

theorem oscRun_closed (flags : List Bool) :
    ∀ d : Int, oscRun d flags = (List.range (flags.count true)).map fun i => (d * (-1) ^ i, 0) := by
  induction flags with
  | nil => intro d; simp [oscRun]
  | cons m ms ih =>
    intro d
    cases m with
    | false =>
      have hc : (false :: ms).count true = ms.count true := by simp [List.count_cons]
      simp only [oscRun, oscTick, if_neg Bool.false_ne_true, hc]
      exact ih d
    | true =>
      have hc : (true :: ms).count true = ms.count true + 1 := by simp [List.count_cons]
      have hr := ih (-d)
      show (d, 0) :: oscRun (-d) ms =
        (List.range ((true :: ms).count true)).map fun i => (d * (-1) ^ i, 0)
      rw [hr, hc, List.range_succ_eq_map, List.map_cons, List.map_map]
      simp only [pow_zero, mul_one]
      congr 1
      apply List.map_congr_left
      intro i _
      simp only [Function.comp_apply, pow_succ]
      ring_nf

/-! Claim theorems. -/

/-- Claim C4 (confirmed): schedule(0) fails with the InvalidArgument error
and leaves any prior schedule completely untouched: the prior cancellation
handle is not retired, the prior target_timestamp and duration_secs are
unchanged, and the race outcome of any prior timer task is unchanged, so a
prior timer can still fire. -/
theorem C4_schedule_zero_invalid : C4_prop :=
  fun _ _ _ _ => ⟨rfl, rfl, rfl, rfl, fun _ => rfl⟩

/-- Claim C9 (confirmed): toggling pointer motion is an involution and each
toggle returns the new value; an oscillator tick moves the pointer iff the
flag is true at that tick, and the successive moves of a run started at
direction 1 are the unit offsets of alternating sign. -/
theorem C9_toggle_and_oscillator : C9_prop := by
  refine ⟨?_, ?_, ?_, ?_, ?_⟩
  · intro st; simp [toggle_mouse]
  · intro st; exact ⟨rfl, rfl⟩
  · intro d; rfl
  · intro d; rfl
  · intro flags
    simpa [one_mul] using oscRun_closed flags 1

/-- Claim C3 (confirmed): for two schedule calls with positive delays where
the second arrives before the first fires, the prior handle is retired and
the fresh one installed within the one schedule step, the descriptor
matches the second call, the first timer task never executes the deferred
action, and the second task is the only live schedule. -/
theorem C3_reschedule_supersedes (n1 d1 n2 d2 : Nat) (h1 : 0 < d1) (h2 : 0 < d2)
    (hb : n2 < n1 + d1) : C3_prop n1 d1 n2 d2 := by
  have e1 : ¬ (d1 = 0) := by omega
  have e2 : ¬ (d2 = 0) := by omega
  have hble : ¬ (n1 + d1 ≤ n2) := by omega
  unfold C3_prop schedule_shutdown initSchedulerState timerWins
  simp [e1, e2, hble, List.filter]

/-- Witness for C3 at a concrete reschedule: schedule 10 s at time 100,
reschedule 7 s at time 105, before the first fires at 110. -/
theorem C3_reschedule_supersedes_witness :
    0 < 10 ∧ 0 < 7 ∧ 105 < 100 + 10 ∧ C3_prop 100 10 105 7 :=
  ⟨by decide, by decide, by decide,
    C3_reschedule_supersedes 100 10 105 7 (by decide) (by decide) (by decide)⟩

/-- Claim C1 (amended, proved): if the timer of an uncancelled,
unsuperseded schedule elapses first, the deferred shutdown action executes
exactly once and the island window closes, but the schedule descriptor is
NOT cleared — target_timestamp, duration_secs and the cancellation handle
all keep their values, and a subsequent status call still reports the fired
schedule. -/
theorem C1_fire_keeps_descriptor (n d : Nat) (h : 0 < d) : C1_prop n d := by
  have e : ¬ (d = 0) := by omega
  unfold C1_prop schedule_shutdown initSchedulerState timerWins fireTimer get_shutdown_time
  simp [e]

/-- Witness for C1 at a concrete schedule of 5 s at time 100. -/
theorem C1_fire_keeps_descriptor_witness : 0 < 5 ∧ C1_prop 100 5 :=
  ⟨by decide, C1_fire_keeps_descriptor 100 5 (by decide)⟩

/-- Claim C1 counterexample: schedule 5 s at time 100 from the initial
state, cancel nothing, and let the timer elapse (its race has no competing
signal, so the timer branch wins): afterwards the three descriptor fields
still hold some 105, some 5 and the handle, and status does not report the
absent-schedule pair, contradicting the claimed clearing. -/
theorem C1_counterexample :
    timerWins (schedule_shutdown 100 5 none fxAll initSchedulerState).2
        { chan := 0, startTime := 100, delaySecs := 5 } = true ∧
    (fireTimer (schedule_shutdown 100 5 none fxAll initSchedulerState).2).1.shutdownTarget
        = some 105 ∧
    (fireTimer (schedule_shutdown 100 5 none fxAll initSchedulerState).2).1.shutdownDuration
        = some 5 ∧
    (fireTimer (schedule_shutdown 100 5 none fxAll initSchedulerState).2).1.shutdownCancelTx
        = some 0 ∧
    get_shutdown_time (fireTimer (schedule_shutdown 100 5 none fxAll initSchedulerState).2).1
        ≠ Except.ok (0, 0) := by
  decide

/-- Claim C2 (amended, proved): every mode-state operation and cancel and
status ignores all window side-effect outcomes and never fails;
schedule_shutdown is likewise independent of the discarded window side
effects, but a failure to build the island countdown window is propagated
as an error — after the descriptor mutation has already committed — and on
that path no timer task is spawned (the task list is unchanged). -/
theorem C2_side_effect_policy : C2_prop := by
  refine ⟨?_, ?_, ?_, ?_, ?_, ?_, ?_, ?_, ?_, ?_, ?_, ?_⟩
  · intro a st fx fx2; rfl
  · intro a st fx; exact ⟨rfl, rfl⟩
  · intro a st fx fx2; rfl
  · intro a st fx; exact ⟨rfl, rfl⟩
  · intro o st; rfl
  · intro st; rfl
  · intro st; rfl
  · intro st; rfl
  · intro now st fx fx2; rfl
  · intro now st fx; rfl
  · intro now d ib st fx fx2; rfl
  · intro now d e st fx hd
    unfold schedule_shutdown
    simp [hd]

/-- Witness for C2 at a concrete failing island build with delay 5. -/
theorem C2_side_effect_policy_witness :
    (5 : Nat) ≠ 0 ∧
    (schedule_shutdown 100 5 (some "boom") fxAll initSchedulerState).1 =
      Except.error "Failed to create island window: boom" :=
  ⟨by decide,
    (C2_side_effect_policy.2.2.2.2.2.2.2.2.2.2.2 100 5 "boom" initSchedulerState fxAll
      (by decide)).1⟩

/-- Claim C2 counterexample: with a positive delay and a failing island
window build, schedule_shutdown returns an error that is neither the
InvalidArgument message nor any Unsupported message of the source, so a
window-manipulation side-effect failure is propagated to the caller; no
timer task is spawned on that path (the task list stays empty). -/
theorem C2_counterexample :
    (schedule_shutdown 100 5 (some "boom") fxAll initSchedulerState).1 =
      Except.error "Failed to create island window: boom" ∧
    "Failed to create island window: boom" ∉ invalidArgumentMsg :: unsupportedMsgs ∧
    (schedule_shutdown 100 5 (some "boom") fxAll initSchedulerState).2.tasks = [] := by
  decide

/-- Claim C5 (confirmed): cancel_shutdown never fails, clears all three
descriptor fields and closes the island window so that status reports
zeros, is idempotent, ignores window side-effect outcomes, and cancelling
before the delay elapses makes the pending timer task lose its race, so the
deferred action never fires. -/
theorem C5_cancel_idempotent : C5_prop := by
  refine ⟨?_, ?_, ?_, ?_, ?_⟩
  · intro now fx st; rfl
  · intro now fx st; exact ⟨rfl, rfl, rfl, rfl, rfl⟩
  · intro now now2 fx fx2 st; rfl
  · intro now fx fx2 st; rfl
  · intro n d m fx fx2 h hm
    have e : ¬ (d = 0) := by omega
    have hmle : ¬ (n + d ≤ m) := by omega
    unfold cancel_shutdown schedule_shutdown initSchedulerState timerWins
    simp [e, hmle]

/-- Witness for C5: cancelling at time 102 a 5 s schedule made at time 100
defeats its timer task. -/
theorem C5_cancel_idempotent_witness :
    0 < 5 ∧ 102 < 100 + 5 ∧
    timerWins (cancel_shutdown 102 fxAll
        (schedule_shutdown 100 5 none fxAll initSchedulerState).2).2
      { chan := 0, startTime := 100, delaySecs := 5 } = false :=
  ⟨by decide, by decide,
    C5_cancel_idempotent.2.2.2.2 100 5 102 fxAll fxAll (by decide) (by decide)⟩

theorem rustTrim_nil : rustTrim "" = "" := by decide

theorem isEmpty_nil : ("" : String).isEmpty = true := by decide

theorem rustStartsWith_err_nil : rustStartsWith "" "ERROR:" = false := by decide

theorem extractPre_facts (env : CaptureEnv) :
    Event.runOcr ∉ extractPre env ∧ visAfter env.wasVisible (extractPre env) = env.wasVisible := by
  obtain ⟨wv, cres, fex, ocr⟩ := env
  cases wv <;> simp [extractPre, visAfter, applyVisibility]

theorem extract_tail (env : CaptureEnv) :
    ∃ tail : List Event,
      (extract_text_from_screen env).2 = extractPre env ++ tail ∧
      Event.windowHide ∉ tail ∧ Event.windowShow ∉ tail := by
  obtain ⟨wv, cres, fex, ocr⟩ := env
  cases cres with
  | error e => exact ⟨[], by simp [extract_text_from_screen], by simp, by simp⟩
  | ok u =>
    cases fex with
    | false => exact ⟨[], by simp [extract_text_from_screen], by simp, by simp⟩
    | true =>
      refine ⟨[Event.runOcr, Event.removeTempFile], ?_, by simp, by simp⟩
      cases ocr with
      | error e => simp [extract_text_from_screen]
      | ok out =>
        cases hsw : rustStartsWith (rustTrim out) "ERROR:" <;>
          simp [extract_text_from_screen, hsw]

theorem extract_cancelled (wv : Bool) (ocr : Except String String) :
    extract_text_from_screen ⟨wv, Except.ok (), false, ocr⟩ =
      (Except.ok "", extractPre ⟨wv, Except.ok (), false, ocr⟩) := by
  simp [extract_text_from_screen]

theorem extract_diag (wv : Bool) (out : String)
    (h : rustStartsWith (rustTrim out) "ERROR:" = true) :
    extract_text_from_screen ⟨wv, Except.ok (), true, Except.ok out⟩ =
      (Except.error (rustTrim out),
        extractPre ⟨wv, Except.ok (), true, Except.ok out⟩ ++
          [Event.runOcr, Event.removeTempFile]) := by
  simp [extract_text_from_screen, h]

theorem extract_plain (wv : Bool) (out : String)
    (h : rustStartsWith (rustTrim out) "ERROR:" = false) :
    extract_text_from_screen ⟨wv, Except.ok (), true, Except.ok out⟩ =
      (Except.ok (rustTrim out),
        extractPre ⟨wv, Except.ok (), true, Except.ok out⟩ ++
          [Event.runOcr, Event.removeTempFile]) := by
  simp [extract_text_from_screen, h]

/-- Claim C6 (confirmed): the gesture watcher changes its counter and
triggers the pipeline only on a rising edge of the control key (logical OR
of the left and right variants); a rising edge within 500 ms increments the
counter, resetting to 0 and triggering exactly when it reaches 3, and a
rising edge 500 ms or more after the previous one resets the counter to 1,
so spaced edges never accumulate. -/
theorem C6_gesture_edges (now : Nat) (lctrl rctrl : Bool) (g : GestureState) :
    C6_prop now lctrl rctrl g := by
  unfold C6_prop gestureStep
  refine ⟨?_, ?_, ?_, ?_⟩
  · intro hnr
    have hcond : ((lctrl || rctrl) && !g.ctrlWasPressed) = false := by
      cases hl : lctrl || rctrl with
      | false => simp
      | true =>
        cases hw : g.ctrlWasPressed with
        | false => exact absurd ⟨hl, hw⟩ hnr
        | true => simp [hw]
    simp [hcond]
  · intro hr h5 h3
    have hcond : ((lctrl || rctrl) && !g.ctrlWasPressed) = true := by
      simp [hr.1, hr.2]
    simp [hcond, h5, h3, hr.1, hr.2]
  · intro hr h5 h3
    have hcond : ((lctrl || rctrl) && !g.ctrlWasPressed) = true := by
      simp [hr.1, hr.2]
    simp [hcond, h5, h3, hr.1, hr.2]
  · intro hr h5
    have hcond : ((lctrl || rctrl) && !g.ctrlWasPressed) = true := by
      simp [hr.1, hr.2]
    have h5n : ¬ (now - g.lastTap < 500) := Nat.not_lt.mpr h5
    simp [hcond, h5n, hr.1, hr.2]

/-- Witness for C6: the third rapid rising edge triggers the pipeline and
resets the counter to 0. -/
theorem C6_gesture_edges_witness :
    gestureStep 400 true false { lastTap := 0, tapCount := 2, ctrlWasPressed := false } =
      ({ lastTap := 400, tapCount := 0, ctrlWasPressed := true }, true) :=
  (C6_gesture_edges 400 true false
    { lastTap := 0, tapCount := 2, ctrlWasPressed := false }).2.2.1
      ⟨rfl, rfl⟩ (by decide) (by decide)

/-- Claim C7 (amended, proved): every pipeline run restores the
presentation window visibility to its pre-run state immediately after the
capture stage, before the OCR command runs, regardless of the capture
outcome, and the extract stage never hides or shows the window again; a
diagnostic-prefixed OCR output ends the run as a failure carrying the
trimmed diagnostic verbatim in the failure notification, and a window that
was visible before the run is still visible at the end.  (When the window
was hidden before the run, the failure notification re-shows it, which is
what the counterexample records.) -/
theorem C7_restore_and_diagnostic (env : CaptureEnv) (clip : Except String Unit) (out : String)
    (hcap : env.captureResult = Except.ok ())
    (hfile : env.fileExists = true)
    (hocr : env.ocrResult = Except.ok out)
    (herr : rustStartsWith (rustTrim out) "ERROR:" = true) :
    C7_restore_prop ∧ C7_prop env clip out := by
  have hre : C7_restore_prop := by
    intro env2
    obtain ⟨t, h1, h2, h3⟩ := extract_tail env2
    obtain ⟨h4, h5⟩ := extractPre_facts env2
    exact ⟨t, h1, h2, h3, h4, h5⟩
  obtain ⟨wv, cres, fex, ocr⟩ := env
  simp only at hcap hfile hocr
  subst hcap; subst hfile; subst hocr
  have hx := extract_diag wv out herr
  refine ⟨hre, ?_, ?_, ?_, ?_⟩
  · simp [hx]
  · simp [process_screenshot_ocr, hx]
  · simp [process_screenshot_ocr, hx, notify_user]
  · intro hwv
    simp only at hwv
    subst hwv
    simp only [process_screenshot_ocr, hx]
    rw [visAfter_append]
    have hpre := (extractPre_facts ⟨true, Except.ok (), true, Except.ok out⟩).2
    simp only at hpre
    rw [visAfter_append] at *
    rw [hpre]
    apply visAfter_true_of_no_hide
    simp [notify_user]

/-- Witness for C7 at a concrete diagnostic run with the window visible
before the run. -/
theorem C7_restore_and_diagnostic_witness :
    (⟨true, Except.ok (), true, Except.ok "ERROR: x"⟩ : CaptureEnv).captureResult =
        Except.ok () ∧
    rustStartsWith (rustTrim "ERROR: x") "ERROR:" = true ∧
    (C7_restore_prop ∧
      C7_prop ⟨true, Except.ok (), true, Except.ok "ERROR: x"⟩ (Except.ok ()) "ERROR: x") :=
  ⟨rfl, by decide,
    C7_restore_and_diagnostic ⟨true, Except.ok (), true, Except.ok "ERROR: x"⟩
      (Except.ok ()) "ERROR: x" rfl rfl rfl (by decide)⟩

/-- Claim C7 counterexample: when the window was hidden before the run and
the OCR output is diagnostic-prefixed, the run does fail with the verbatim
diagnostic, but the failure notification re-shows the window, so the final
visibility is not the pre-run hidden state — visibility is not left as
restored by the end of the run. -/
theorem C7_counterexample :
    envDiag.wasVisible = false ∧
    (process_screenshot_ocr envDiag (Except.ok ())).1 = Except.error "ERROR: boom" ∧
    Event.notify "OCR Failed" "ERROR: boom" ∈ (process_screenshot_ocr envDiag (Except.ok ())).2 ∧
    visAfter envDiag.wasVisible (process_screenshot_ocr envDiag (Except.ok ())).2 = true := by
  decide

/-- Claim C8 (confirmed): a run whose capture produced no output file
returns the empty string from the extract stage, completes successfully,
performs no clipboard transfer and surfaces no notification of any kind. -/
theorem C8_cancelled_silent (env : CaptureEnv) (clip : Except String Unit)
    (hcap : env.captureResult = Except.ok ())
    (hfile : env.fileExists = false) : C8_prop env clip := by
  obtain ⟨wv, cres, fex, ocr⟩ := env
  simp only at hcap hfile
  subst hcap; subst hfile
  have hx := extract_cancelled wv ocr
  refine ⟨hx, ?_, ?_⟩
  · simp [process_screenshot_ocr, hx, rustTrim_nil, isEmpty_nil]
  · cases wv <;> simp [extractPre, publicFx]

/-- Witness for C8 at a concrete cancelled capture. -/
theorem C8_cancelled_silent_witness :
    (⟨true, Except.ok (), false, Except.ok ""⟩ : CaptureEnv).captureResult = Except.ok () ∧
    (⟨true, Except.ok (), false, Except.ok ""⟩ : CaptureEnv).fileExists = false ∧
    C8_prop ⟨true, Except.ok (), false, Except.ok ""⟩ (Except.ok ()) :=
  ⟨rfl, rfl, C8_cancelled_silent ⟨true, Except.ok (), false, Except.ok ""⟩ (Except.ok ()) rfl rfl⟩

/-- Claim C10 (confirmed): a run whose capture succeeded but whose OCR text
is blank after trimming completes successfully, writes no clipboard, emits
no notification, and matches the cancelled-capture run at the public
interface. -/
theorem C10_blank_text_silent (env : CaptureEnv) (clip : Except String Unit) (out : String)
    (hcap : env.captureResult = Except.ok ())
    (hfile : env.fileExists = true)
    (hocr : env.ocrResult = Except.ok out)
    (htrim : rustTrim out = "") : C10_prop env clip := by
  obtain ⟨wv, cres, fex, ocr⟩ := env
  simp only at hcap hfile hocr
  subst hcap; subst hfile; subst hocr
  have hsw : rustStartsWith (rustTrim out) "ERROR:" = false := by
    rw [htrim]; exact rustStartsWith_err_nil
  have hx := extract_plain wv out hsw
  rw [htrim] at hx
  have hc := extract_cancelled wv (Except.ok out)
  refine ⟨?_, ?_, ?_, ?_⟩
  · simp [process_screenshot_ocr, hx, rustTrim_nil, isEmpty_nil]
  · cases wv <;>
      simp [process_screenshot_ocr, hx, rustTrim_nil, isEmpty_nil, extractPre, publicFx]
  · simp [process_screenshot_ocr, hx, hc, rustTrim_nil, isEmpty_nil]
  · cases wv <;>
      simp [process_screenshot_ocr, hc, rustTrim_nil, isEmpty_nil, extractPre, publicFx]

/-- Witness for C10 at a concrete whitespace-only OCR output. -/
theorem C10_blank_text_silent_witness :
    rustTrim "  " = "" ∧
    C10_prop ⟨true, Except.ok (), true, Except.ok "  "⟩ (Except.ok ()) :=
  ⟨by decide,
    C10_blank_text_silent ⟨true, Except.ok (), true, Except.ok "  "⟩ (Except.ok ()) "  "
      rfl rfl rfl (by decide)⟩

end TaskGoblin
